import Mathlib

/-!
Verification of the multi-leg route composition engine of the pg-routing
repository (`src/routes/api/routing/search/+server.ts`).

The TypeScript handler is shallowly embedded below:
- JSON numbers are modelled as `ℚ` (the handler performs only exact
  arithmetic on them: sums, differences and comparisons);
- optional / nullable fields are `Option`;
- the PostgreSQL / PostGIS / pgRouting collaborators are abstracted into an
  `Env` record of pure query functions (the handler only ever forwards their
  row sets);
- the dynamically concatenated SQL `WHERE` clause of `buildWhereClause` is
  embedded as a list of condition values (`Cond`), one per pushed conjunct,
  evaluated over an edge row; the `' AND '`-joined avoid-area string is
  modelled as the list of its conjuncts (same conjunctive semantics);
- `ST_Intersects(geom, ST_Buffer(pt::geography, r)::geometry)` — a buffer of
  `r` metres computed on the geography type, i.e. in true ground distance —
  is modelled as `geodesic distance from the edge geometry to pt ≤ r`, via
  the `geomDistTo` field of an edge.
-/

namespace PgRouting

/-- A raw waypoint entry of the request body (`{ lat, lon }`). -/
structure LatLon where
  lat : ℚ
  lon : ℚ
deriving DecidableEq

/-- An avoid-area entry of the request body (`{ lat, lon, radius }`);
`radius` is optional (`area.radius` may be absent). -/
structure AvoidArea where
  lat : ℚ
  lon : ℚ
  radius : Option ℚ
deriving DecidableEq

/-- The destructured request body of the `POST` handler.  Coordinate fields
are `Option ℚ`: `none` models an absent JSON field. `waypoints`,
`avoidMotorways`, `vehicleWidth`, `vehicleHeight`, `avoidAreas` carry the
handler's defaults when absent, so they are stored already defaulted. -/
structure Request where
  startLat : Option ℚ
  startLon : Option ℚ
  endLat : Option ℚ
  endLon : Option ℚ
  waypoints : List LatLon
  avoidMotorways : Bool
  vehicleWidth : Option ℚ
  vehicleHeight : Option ℚ
  avoidAreas : List AvoidArea
deriving DecidableEq

/-- JavaScript falsiness of a possibly-absent JSON number: absent,
`null` and `0` are falsy (`NaN` has no `ℚ` counterpart). -/
def falsyNum : Option ℚ → Bool
  | none => true
  | some x => decide (x = 0)

/-- JavaScript truthiness test `v && v > bound` on a nullable number. -/
def jsTruthyGt (v : Option ℚ) (bound : ℚ) : Bool :=
  match v with
  | none => false
  | some x => decide (x ≠ 0) && decide (bound < x)

/-- One row of the `ways` table as seen by the compiled predicate:
`tagValues` is the list of `configuration.tag_value` entries whose `tag_id`
equals the edge's `tag_id`; `cost_s` is the nullable travel-time cost;
`geomDistTo lon lat` is the geodesic (geography) distance in metres from the
edge's geometry to the point `(lon, lat)`. -/
structure Edge where
  gid : Int
  tagValues : List String
  cost_s : Option ℚ
  geomDistTo : ℚ → ℚ → ℚ

/-- One conjunct of the dynamically built `WHERE` clause. -/
inductive Cond where
  /-- The base condition `cost_s IS NOT NULL` passed for the time metric. -/
  | costNotNull : Cond
  /-- `NOT EXISTS (SELECT 1 FROM configuration c WHERE c.tag_id = ways.tag_id
  AND c.tag_value IN tags)`. -/
  | notTagIn : List String → Cond
  /-- `NOT ST_Intersects(ways.the_geom, ST_Buffer(ST_MakePoint(lon, lat)
  ::geography, radiusMeters)::geometry)` — a geodesic buffer of
  `radiusMeters` metres. -/
  | notIntersectsBuffer : ℚ → ℚ → ℚ → Cond
deriving DecidableEq

/-- Evaluation of one `WHERE`-clause conjunct over an edge row.  The
geography-typed `ST_Buffer`/`ST_Intersects` pair is interpreted as: the
edge's geometry intersects the buffer iff its geodesic distance to the
centre is at most the radius, so the negated condition admits the edge iff
`radius < distance`. -/
def evalCond (e : Edge) : Cond → Bool
  | .costNotNull => e.cost_s.isSome
  | .notTagIn tags => decide (∀ t ∈ e.tagValues, t ∉ tags)
  | .notIntersectsBuffer lon lat r => decide (r < e.geomDistTo lon lat)

/-- Evaluation of a whole `WHERE` clause (conjunction of its conditions;
an empty clause admits every edge). -/
def evalWhere (e : Edge) (conds : List Cond) : Bool :=
  conds.all (evalCond e)

/-- `area.radius || 500`: the effective buffer radius of an avoid area —
500 when the radius is absent or `0` (JavaScript `||` defaults on any falsy
value). -/
def effRadius (area : AvoidArea) : ℚ :=
  match area.radius with
  | none => 500
  | some r => if r = 0 then 500 else r

/-- The condition pushed for one avoid area.  The source also computes
`radiusDegrees = radiusMeters / 111000`, but that value is dead: the query
template interpolates `radiusMeters` into a geography-typed `ST_Buffer`,
which buffers in metres (geodesically). -/
def avoidAreaCond (area : AvoidArea) : Cond :=
  Cond.notIntersectsBuffer area.lon area.lat (effRadius area)

/-- `buildWhereClause(baseWhere)`: the list of conjuncts pushed onto
`conditions`, in source order — the optional base condition, the motorway
exclusion, the width proxy exclusion, the height proxy exclusion, then one
conjunct per avoid area (the source joins these with `' AND '` into a single
pushed string; conjunctive semantics are identical). -/
def buildWhereClause (req : Request) (base : Option Cond) : List Cond :=
  (match base with | some b => [b] | none => []) ++
  (if req.avoidMotorways then [Cond.notTagIn ["motorway", "motorway_link"]] else []) ++
  (if jsTruthyGt req.vehicleWidth 2.5 then
    [Cond.notTagIn ["service", "residential", "living_street", "track"]] else []) ++
  (if jsTruthyGt req.vehicleHeight 3.5 then [Cond.notTagIn ["tunnel"]] else []) ++
  (if req.avoidAreas.length > 0 then req.avoidAreas.map avoidAreaCond else [])

/-- The `WHERE` clause used by each route query: the distance query uses
`buildWhereClause()`, the time query uses
`buildWhereClause('cost_s IS NOT NULL')`. -/
inductive RouteType where
  | shortest
  | fastest
deriving DecidableEq

def queryWhere (req : Request) : RouteType → List Cond
  | .shortest => buildWhereClause req none
  | .fastest => buildWhereClause req (some .costNotNull)

/-- One row of a leg's route query result (the `SELECT` over `pgr_dijkstra`
joined with `ways` and `configuration`, filtered by `r.edge IS NOT NULL`).
Nullable columns coming from the `LEFT JOIN` are `Option`. -/
structure Row where
  seq : Int
  path_seq : Int
  node : Int
  edge : Int
  cost : ℚ
  agg_cost : ℚ
  geom : Option String
  name : Option String
  length_m : Option ℚ
  cost_minutes : Option ℚ
  road_type : Option String
deriving DecidableEq

/-- A labelled input point (`{ lat, lon, type }` in `allPoints`). -/
structure LabeledPoint where
  label : String
  lat : ℚ
  lon : ℚ
deriving DecidableEq

/-- One entry of `allLegs` as built by `calculateMultiLegRoute`. -/
structure Leg where
  fromIndex : Nat
  toIndex : Nat
  fromPoint : LabeledPoint
  toPoint : LabeledPoint
  rows : List Row
deriving DecidableEq

/-- `row.length_m || 0` / `row.cost_minutes || 0`. -/
def orZero : Option ℚ → ℚ
  | none => 0
  | some x => x

/-- `leg.rows.reduce((sum, row) => sum + (row.length_m || 0), 0)`. -/
def legDistance (rows : List Row) : ℚ :=
  rows.foldl (fun sum row => sum + orZero row.length_m) 0

/-- `leg.rows.reduce((sum, row) => sum + (row.cost_minutes || 0), 0)`. -/
def legMinutes (rows : List Row) : ℚ :=
  rows.foldl (fun sum row => sum + orZero row.cost_minutes) 0

/-- `leg.rows[leg.rows.length - 1]?.agg_cost || 0`: the final cumulative
cost of a leg (0 for an empty leg; `agg_cost` itself is never null). -/
def legCost (rows : List Row) : ℚ :=
  match rows.getLast? with
  | none => 0
  | some r => r.agg_cost

/-- One stitched segment pushed onto `allSegments` by
`formatMultiLegRoute`. -/
structure Segment where
  sequence : Int
  node : Int
  edge : Int
  cost : ℚ
  costMinutes : Option ℚ
  accumulatedCost : ℚ
  geometry : Option String
  name : Option String
  length : Option ℚ
  roadType : Option String
  legIndex : Nat
deriving DecidableEq

/-- The mutable accumulators of the `for (const leg of legs)` loop in
`formatMultiLegRoute`. -/
structure StitchState where
  segments : List Segment
  totalDistance : ℚ
  totalMinutes : ℚ
  totalCost : ℚ
  sequenceOffset : Int
deriving DecidableEq

/-- One iteration of the stitching loop: update the totals, then push every
row of the leg as a stitched segment with
`sequence = sequenceOffset + row.seq` and
`accumulatedCost = totalCost - legCost + row.agg_cost` (where `totalCost`
has already been incremented by this leg's `legCost`), then advance
`sequenceOffset` by the leg's row count. -/
def stitchLeg (st : StitchState) (leg : Leg) : StitchState :=
  let legDist := legDistance leg.rows
  let legMin := legMinutes leg.rows
  let legC := legCost leg.rows
  let totalCost := st.totalCost + legC
  { segments := st.segments ++ leg.rows.map (fun row =>
      { sequence := st.sequenceOffset + row.seq
        node := row.node
        edge := row.edge
        cost := row.cost
        costMinutes := row.cost_minutes
        accumulatedCost := totalCost - legC + row.agg_cost
        geometry := row.geom
        name := row.name
        length := row.length_m
        roadType := row.road_type
        legIndex := leg.fromIndex })
    totalDistance := st.totalDistance + legDist
    totalMinutes := st.totalMinutes + legMin
    totalCost := totalCost
    sequenceOffset := st.sequenceOffset + leg.rows.length }

/-- The initial accumulator values of the stitching loop. -/
def initState : StitchState :=
  { segments := [], totalDistance := 0, totalMinutes := 0, totalCost := 0,
    sequenceOffset := 0 }

/-- A waypoint echoed in the formatted route, enriched with its resolved
node id (`{...wp, nodeId: nodeIds[idx + 1]}`). -/
structure WaypointEcho where
  lat : ℚ
  lon : ℚ
  nodeId : Int
deriving DecidableEq

/-- One per-leg summary of the formatted route's `legs` field. -/
structure LegSummary where
  fromPoint : LabeledPoint
  toPoint : LabeledPoint
  distance : ℚ
  minutes : ℚ
deriving DecidableEq

/-- The object returned by `formatMultiLegRoute` for one metric. -/
structure FormattedRoute where
  routeType : RouteType
  label : String
  startNode : Int
  endNode : Int
  waypointsEcho : List WaypointEcho
  totalCost : ℚ
  totalDistance : ℚ
  totalMinutes : ℚ
  estimatedDuration : ℚ
  segments : List Segment
  legSummaries : List LegSummary
deriving DecidableEq

/-- The route object assembled after the stitching loop for a non-empty
leg list. -/
def assembleRoute (nodeIds : List Int) (waypoints : List LatLon)
    (l : List Leg) (rt : RouteType) : FormattedRoute :=
  { routeType := rt
    label := match rt with | .shortest => "最短経路" | .fastest => "最速経路"
    startNode := nodeIds.getD 0 0
    endNode := nodeIds.getD (nodeIds.length - 1) 0
    waypointsEcho := waypoints.enum.map (fun p =>
      { lat := p.2.lat, lon := p.2.lon, nodeId := nodeIds.getD (p.1 + 1) 0 })
    totalCost := (l.foldl stitchLeg initState).totalCost
    totalDistance := (l.foldl stitchLeg initState).totalDistance
    totalMinutes := (l.foldl stitchLeg initState).totalMinutes
    estimatedDuration := (l.foldl stitchLeg initState).totalMinutes * 60
    segments := (l.foldl stitchLeg initState).segments
    legSummaries := l.map (fun leg =>
      { fromPoint := leg.fromPoint, toPoint := leg.toPoint,
        distance := legDistance leg.rows, minutes := legMinutes leg.rows }) }

/-- `formatMultiLegRoute(legs, routeType)`: `null` when `legs` is null or
empty; otherwise runs the stitching loop and assembles the route object.
`nodeIds` and `waypoints` are the surrounding closure's captured values. -/
def formatMultiLegRoute (nodeIds : List Int) (waypoints : List LatLon)
    (legs : Option (List Leg)) (rt : RouteType) : Option FormattedRoute :=
  match legs with
  | none => none
  | some l =>
    if l.isEmpty then none
    else some (assembleRoute nodeIds waypoints l rt)

/-- The external database collaborators, abstracted as pure query
functions: `nearestNode lon lat` is the (at most one) row of the
nearest-vertex query; `routeRows rt whereConds from to` is the row set of
the distance or time route query — whose SQL embeds the compiled `WHERE`
clause — for one vertex pair. -/
structure Env where
  nearestNode : ℚ → ℚ → Option Int
  routeRows : RouteType → List Cond → Int → Int → List Row

/-- One database query issued by the handler (the observable trace). -/
inductive Call where
  | nearest : ℚ → ℚ → Call
  | route : RouteType → Int → Int → Call
deriving DecidableEq

/-- `allPoints`: the labelled input points, in order — start, then
`waypoint-<idx>` for each waypoint (input order preserved), then end.  The
coordinates are read with a default of 0; the handler only reaches this
point when none of the four start/end coordinates is falsy. -/
def allPoints (req : Request) : List LabeledPoint :=
  ({ label := "start", lat := req.startLat.getD 0, lon := req.startLon.getD 0 } ::
    req.waypoints.enum.map (fun p =>
      { label := "waypoint-" ++ toString p.1, lat := p.2.lat, lon := p.2.lon })) ++
  [{ label := "end", lat := req.endLat.getD 0, lon := req.endLon.getD 0 }]

/-- `nodeResults`: each point paired with the nearest-vertex lookup result
(`found` is `Option.isSome`, `nodeId` is the row id when found). -/
def nodeResults (env : Env) (req : Request) : List (LabeledPoint × Option Int) :=
  (allPoints req).map (fun p => (p, env.nearestNode p.lon p.lat))

/-- `missingNodes`: the resolution results whose lookup found no vertex,
input order preserved. -/
def missingNodes (env : Env) (req : Request) : List (LabeledPoint × Option Int) :=
  (nodeResults env req).filter (fun pr => pr.2.isNone)

/-- `nodeIds`: the resolved vertex ids, one per input point (only used when
every point resolved, so the default 0 is never read). -/
def resolvedIds (env : Env) (req : Request) : List Int :=
  (nodeResults env req).map (fun pr => pr.2.getD 0)

/-- The consecutive `(i, nodeIds[i], nodeIds[i+1])` pairs iterated by the
`for (let i = 0; i < nodeIds.length - 1; i++)` loop. -/
def legPairs (ids : List Int) : List (Nat × Int × Int) :=
  (List.range (ids.length - 1)).map (fun i => (i, ids.getD i 0, ids.getD (i + 1) 0))

/-- Fallback point for out-of-range indexing (never reached: the loop index
stays within `allPoints`). -/
def ptDefault : LabeledPoint := { label := "", lat := 0, lon := 0 }

/-- The leg loop of `calculateMultiLegRoute`: query each consecutive vertex
pair in order; on the first empty row set return `null` immediately (no
further leg query is issued); otherwise collect the legs.  The second
component is the trace of route queries issued. -/
def calcLegsAux (env : Env) (wc : List Cond) (rt : RouteType)
    (pts : List LabeledPoint) : List (Nat × Int × Int) → Option (List Leg) × List Call
  | [] => (some [], [])
  | (i, fromN, toN) :: rest =>
    let rows := env.routeRows rt wc fromN toN
    if rows.isEmpty then (none, [Call.route rt fromN toN])
    else
      match calcLegsAux env wc rt pts rest with
      | (none, calls) => (none, Call.route rt fromN toN :: calls)
      | (some legs, calls) =>
        (some ({ fromIndex := i, toIndex := i + 1,
                 fromPoint := pts.getD i ptDefault,
                 toPoint := pts.getD (i + 1) ptDefault,
                 rows := rows } :: legs),
         Call.route rt fromN toN :: calls)

/-- `calculateMultiLegRoute(routeType)`: run the leg loop over all
consecutive resolved-vertex pairs, with the `WHERE` clause matching the
metric's query. -/
def calculateMultiLegRoute (env : Env) (req : Request) (ids : List Int)
    (pts : List LabeledPoint) (rt : RouteType) : Option (List Leg) × List Call :=
  calcLegsAux env (queryWhere req rt) rt pts (legPairs ids)

/-- The leg list a metric's pipeline produces inside `POST` (null when some
leg was unreachable). -/
def metricLegs (env : Env) (req : Request) (rt : RouteType) : Option (List Leg) :=
  (calculateMultiLegRoute env req (resolvedIds env req) (allPoints req) rt).1

/-- The echoed constraint summary of the response. -/
structure Constraints where
  avoidMotorways : Bool
  vehicleWidth : Option ℚ
  vehicleHeight : Option ℚ
  avoidAreasCount : Nat
deriving DecidableEq

/-- The success payload of the handler (`routes` object). -/
structure RoutesPayload where
  shortest : Option FormattedRoute
  fastest : Option FormattedRoute
  routes : List FormattedRoute
  waypoints : List LatLon
  avoidAreas : List AvoidArea
  constraints : Constraints
deriving DecidableEq

/-- The handler's response value. -/
inductive Response where
  /-- 400: a start/end coordinate is missing (or falsy). -/
  | invalidInput : Response
  /-- 404: some points had no nearby vertex; carries `missingPoints`. -/
  | pointsNotResolved : List String → Response
  /-- 404: both metrics produced no route. -/
  | noRouteFound : Response
  /-- 200: the assembled routes object. -/
  | ok : RoutesPayload → Response
deriving DecidableEq

/-- The HTTP status of each response. -/
def status : Response → Nat
  | .invalidInput => 400
  | .pointsNotResolved _ => 404
  | .noRouteFound => 404
  | .ok _ => 200

/-- The trace of nearest-vertex queries issued by the resolution step (one
per input point, via `Promise.all`). -/
def nearestCalls (req : Request) : List Call :=
  (allPoints req).map (fun p => Call.nearest p.lon p.lat)

/-- The result (legs and issued route queries) of one metric's pipeline as
run by `POST` on the resolved vertex ids. -/
def metricRun (env : Env) (req : Request) (rt : RouteType) :
    Option (List Leg) × List Call :=
  calculateMultiLegRoute env req (resolvedIds env req) (allPoints req) rt

/-- The success payload assembled by the handler from the two pipelines. -/
def okPayload (env : Env) (req : Request) : RoutesPayload :=
  { shortest := formatMultiLegRoute (resolvedIds env req) req.waypoints
      (metricRun env req .shortest).1 .shortest
    fastest := formatMultiLegRoute (resolvedIds env req) req.waypoints
      (metricRun env req .fastest).1 .fastest
    routes :=
      [formatMultiLegRoute (resolvedIds env req) req.waypoints
         (metricRun env req .shortest).1 .shortest,
       formatMultiLegRoute (resolvedIds env req) req.waypoints
         (metricRun env req .fastest).1 .fastest].reduceOption
    waypoints := req.waypoints
    avoidAreas := req.avoidAreas
    constraints :=
      { avoidMotorways := req.avoidMotorways
        vehicleWidth := req.vehicleWidth
        vehicleHeight := req.vehicleHeight
        avoidAreasCount := req.avoidAreas.length } }

/-- The `POST` handler: validate input, resolve all points, short-circuit
on unresolved points, run both metric pipelines, and assemble the result.
Returns the response together with the trace of issued database queries. -/
def POST (env : Env) (req : Request) : Response × List Call :=
  if falsyNum req.startLat || falsyNum req.startLon ||
      falsyNum req.endLat || falsyNum req.endLon then
    (.invalidInput, [])
  else if missingNodes env req = [] then
    if (metricRun env req .shortest).1.isNone &&
        (metricRun env req .fastest).1.isNone then
      (.noRouteFound,
       nearestCalls req ++ (metricRun env req .shortest).2 ++
         (metricRun env req .fastest).2)
    else
      (.ok (okPayload env req),
       nearestCalls req ++ (metricRun env req .shortest).2 ++
         (metricRun env req .fastest).2)
  else
    (.pointsNotResolved ((missingNodes env req).map (fun pr => pr.1.label)),
     nearestCalls req)

/-- `validInput`: the negation of the handler's falsiness check on the four
start/end coordinates (`!startLat || !startLon || !endLat || !endLon`). -/
def validInput (req : Request) : Bool :=
  !(falsyNum req.startLat || falsyNum req.startLon ||
    falsyNum req.endLat || falsyNum req.endLon)

/-!  Specification-side descriptions of the stitched route, used to state
the stitching claims.  `specAccCosts` renders the claim's words: each
stitched segment's cumulative cost is the running sum of the final
cumulative costs of all previous legs plus the segment's own leg-local
cumulative cost.  `specSeqs` renders: each stitched sequence is the running
sum of the segment counts of all previous legs plus the leg-local sequence.
`seqList c n` is the contiguous run `c, c+1, …, c+n-1`. -/

def specAccCosts : ℚ → List Leg → List ℚ
  | _, [] => []
  | off, leg :: rest =>
    leg.rows.map (fun row => off + row.agg_cost) ++
      specAccCosts (off + legCost leg.rows) rest

def specSeqs : Int → List Leg → List Int
  | _, [] => []
  | soff, leg :: rest =>
    leg.rows.map (fun row => soff + row.seq) ++
      specSeqs (soff + leg.rows.length) rest

def seqList (c : Int) : Nat → List Int
  | 0 => []
  | n + 1 => c :: seqList (c + 1) n

/-- Total number of segments over a list of legs. -/
def totalRows (L : List Leg) : Nat :=
  (L.map (fun leg => leg.rows.length)).sum

/-- The stitched segment list, written with explicit running offsets (the
loop's `totalCost - legCost` equals the cost offset accumulated over the
previous legs). -/
def stitchSegs (costOff : ℚ) (seqOff : Int) : List Leg → List Segment
  | [] => []
  | leg :: rest =>
    leg.rows.map (fun row =>
      { sequence := seqOff + row.seq
        node := row.node
        edge := row.edge
        cost := row.cost
        costMinutes := row.cost_minutes
        accumulatedCost := costOff + row.agg_cost
        geometry := row.geom
        name := row.name
        length := row.length_m
        roadType := row.road_type
        legIndex := leg.fromIndex }) ++
      stitchSegs (costOff + legCost leg.rows) (seqOff + leg.rows.length) rest

lemma stitchLeg_segments (st : StitchState) (leg : Leg) :
    (stitchLeg st leg).segments =
      st.segments ++ leg.rows.map (fun row =>
        { sequence := st.sequenceOffset + row.seq
          node := row.node
          edge := row.edge
          cost := row.cost
          costMinutes := row.cost_minutes
          accumulatedCost := st.totalCost + row.agg_cost
          geometry := row.geom
          name := row.name
          length := row.length_m
          roadType := row.road_type
          legIndex := leg.fromIndex }) := by
  simp only [stitchLeg]
  congr 1
  apply List.map_congr_left
  intro row _
  simp only [Segment.mk.injEq, and_true, true_and]
  rw [add_sub_cancel_right]

lemma foldl_stitchLeg_segments : ∀ (L : List Leg) (st : StitchState),
    (L.foldl stitchLeg st).segments =
      st.segments ++ stitchSegs st.totalCost st.sequenceOffset L
  | [], st => by simp [stitchSegs]
  | leg :: rest, st => by
    rw [List.foldl_cons, foldl_stitchLeg_segments rest, stitchLeg_segments]
    have ht : (stitchLeg st leg).totalCost = st.totalCost + legCost leg.rows := rfl
    have hs : (stitchLeg st leg).sequenceOffset =
        st.sequenceOffset + leg.rows.length := rfl
    rw [ht, hs]
    simp [stitchSegs, List.append_assoc]

lemma map_acc_stitchSegs : ∀ (off : ℚ) (soff : Int) (L : List Leg),
    (stitchSegs off soff L).map Segment.accumulatedCost = specAccCosts off L
  | _, _, [] => rfl
  | off, soff, leg :: rest => by
    simp only [stitchSegs, specAccCosts, List.map_append, List.map_map]
    rw [map_acc_stitchSegs]
    rfl

lemma map_seq_stitchSegs : ∀ (off : ℚ) (soff : Int) (L : List Leg),
    (stitchSegs off soff L).map Segment.sequence = specSeqs soff L
  | _, _, [] => rfl
  | off, soff, leg :: rest => by
    simp only [stitchSegs, specSeqs, List.map_append, List.map_map]
    rw [map_seq_stitchSegs]
    rfl

lemma specAccCosts_head : ∀ (off : ℚ) (L : List Leg),
    (∀ leg ∈ L, leg.rows ≠ []) →
    (∀ leg ∈ L, ∀ row ∈ leg.rows, 0 ≤ row.agg_cost) →
    ∀ y ∈ (specAccCosts off L).head?, off ≤ y
  | _, [], _, _ => by simp [specAccCosts]
  | off, leg :: rest, hne, hnn => by
    intro y hy
    cases hrows : leg.rows with
    | nil => exact absurd hrows (hne leg (by simp))
    | cons r rs =>
      simp only [specAccCosts, hrows, List.map_cons, List.cons_append,
        List.head?_cons, Option.mem_def, Option.some.injEq] at hy
      have h0 : 0 ≤ r.agg_cost :=
        hnn leg (by simp) r (by simp [hrows])
      linarith [hy]

lemma specAccCosts_chain : ∀ (off : ℚ) (L : List Leg),
    (∀ leg ∈ L, leg.rows ≠ []) →
    (∀ leg ∈ L, List.Chain' (· ≤ ·) (leg.rows.map Row.agg_cost)) →
    (∀ leg ∈ L, ∀ row ∈ leg.rows, 0 ≤ row.agg_cost) →
    List.Chain' (· ≤ ·) (specAccCosts off L)
  | _, [], _, _, _ => List.chain'_nil
  | off, leg :: rest, hne, hchain, hnn => by
    simp only [specAccCosts]
    apply List.Chain'.append
    · have h1 : List.Chain' (· ≤ ·) (leg.rows.map Row.agg_cost) :=
        hchain leg (by simp)
      have h2 : leg.rows.map (fun row => off + row.agg_cost) =
          (leg.rows.map Row.agg_cost).map (fun x => off + x) := by
        rw [List.map_map]; rfl
      rw [h2, List.chain'_map]
      exact h1.imp (fun a b hab => add_le_add_left hab off)
    · exact specAccCosts_chain (off + legCost leg.rows) rest
        (fun l hl => hne l (by simp [hl]))
        (fun l hl => hchain l (by simp [hl]))
        (fun l hl => hnn l (by simp [hl]))
    · intro x hx y hy
      have hlast : x = off + legCost leg.rows := by
        rw [List.getLast?_map] at hx
        cases hrows : leg.rows.getLast? with
        | none =>
          rw [hrows] at hx; simp at hx
        | some r =>
          rw [hrows] at hx
          simp only [Option.map_some', Option.mem_def, Option.some.injEq] at hx
          rw [← hx, legCost, hrows]
      have hhead : off + legCost leg.rows ≤ y :=
        specAccCosts_head (off + legCost leg.rows) rest
          (fun l hl => hne l (by simp [hl]))
          (fun l hl => hnn l (by simp [hl])) y hy
      rw [hlast]; exact hhead

lemma seqList_append : ∀ (n : Nat) (c : Int) (m : Nat),
    seqList c (n + m) = seqList c n ++ seqList (c + n) m
  | 0, c, m => by simp [seqList]
  | n + 1, c, m => by
    have h : n + 1 + m = (n + m) + 1 := by omega
    rw [h]
    simp only [seqList, List.cons_append]
    rw [seqList_append n (c + 1) m]
    have h2 : c + 1 + (n : Int) = c + ((n + 1 : Nat) : Int) := by omega
    rw [h2]

lemma seqList_map_add : ∀ (n : Nat) (s c : Int),
    (seqList c n).map (fun x => s + x) = seqList (s + c) n
  | 0, _, _ => rfl
  | n + 1, s, c => by
    simp only [seqList, List.map_cons]
    rw [seqList_map_add n s (c + 1)]
    have h4 : s + (c + 1) = s + c + 1 := by omega
    rw [h4]

lemma specSeqs_length : ∀ (soff : Int) (L : List Leg),
    (specSeqs soff L).length = totalRows L
  | _, [] => rfl
  | soff, leg :: rest => by
    simp only [specSeqs, List.length_append, List.length_map, totalRows,
      List.map_cons, List.sum_cons]
    rw [show (specSeqs (soff + ↑leg.rows.length) rest).length = totalRows rest
      from specSeqs_length _ rest]
    rfl

lemma specSeqs_eq (c : Int) : ∀ (soff : Int) (L : List Leg),
    (∀ leg ∈ L, leg.rows.map Row.seq = seqList c leg.rows.length) →
    specSeqs soff L = seqList (soff + c) (totalRows L)
  | _, [], _ => rfl
  | soff, leg :: rest, hseq => by
    simp only [specSeqs, totalRows, List.map_cons, List.sum_cons]
    rw [seqList_append]
    congr 1
    · have h1 : leg.rows.map (fun row => soff + row.seq) =
          (leg.rows.map Row.seq).map (fun x => soff + x) := by
        rw [List.map_map]; rfl
      rw [h1, hseq leg (by simp), seqList_map_add]
    · rw [specSeqs_eq c (soff + leg.rows.length) rest
        (fun l hl => hseq l (by simp [hl]))]
      have h3 : soff + (leg.rows.length : Int) + c =
          soff + c + leg.rows.length := by omega
      rw [h3]
      rfl

/-- The edge is not tagged with any of the given tag values (no
`configuration` row for its `tag_id` has a value in the list). -/
def noTagIn (e : Edge) (tags : List String) : Bool :=
  decide (∀ t ∈ e.tagValues, t ∉ tags)

/-- Characterization of the compiled `WHERE` clause as a conjunction of its
(possibly absent) constraint clauses. -/
lemma all_map_cond (e : Edge) : ∀ (l : List AvoidArea),
    (l.map avoidAreaCond).all (evalCond e) =
      l.all (fun a => evalCond e (avoidAreaCond a))
  | [] => rfl
  | a :: rest => by
    simp only [List.map_cons, List.all_cons, all_map_cond e rest]

/-- Characterization of the compiled `WHERE` clause as a conjunction of its
(possibly absent) constraint clauses. -/
lemma evalWhere_buildWhere (req : Request) (e : Edge) (base : Option Cond) :
    evalWhere e (buildWhereClause req base) =
      ((match base with | some b => evalCond e b | none => true) &&
       (!req.avoidMotorways || noTagIn e ["motorway", "motorway_link"]) &&
       (!jsTruthyGt req.vehicleWidth 2.5 ||
         noTagIn e ["service", "residential", "living_street", "track"]) &&
       (!jsTruthyGt req.vehicleHeight 3.5 || noTagIn e ["tunnel"]) &&
       req.avoidAreas.all (fun a => evalCond e (avoidAreaCond a))) := by
  have hz : (if req.avoidAreas.length > 0
        then req.avoidAreas.map avoidAreaCond else []).all (evalCond e) =
      req.avoidAreas.all (fun a => evalCond e (avoidAreaCond a)) := by
    cases req.avoidAreas with
    | nil => rfl
    | cons a rest =>
      rw [if_pos (by simp)]
      exact all_map_cond e (a :: rest)
  cases base <;>
    cases hm : req.avoidMotorways <;>
      cases hw : jsTruthyGt req.vehicleWidth 2.5 <;>
        cases hh : jsTruthyGt req.vehicleHeight 3.5 <;>
          simp [evalWhere, buildWhereClause, hm, hw, hh, hz, noTagIn, evalCond,
            Bool.and_assoc]

/-- Claim-side trigger for the width constraint: the vehicle width is
given and greater than 2.5. -/
def claimWidthTrig (req : Request) : Bool :=
  match req.vehicleWidth with
  | none => false
  | some w => decide ((2.5 : ℚ) < w)

/-- Claim-side trigger for the height constraint: the vehicle height is
given and greater than 3.5. -/
def claimHeightTrig (req : Request) : Bool :=
  match req.vehicleHeight with
  | none => false
  | some h => decide ((3.5 : ℚ) < h)

/-- Claim-side description of the compiled predicate: the conjunction of
the three constraint rules (each present exactly when its trigger holds)
and the avoid-zone exclusions. -/
def claimAdmits (req : Request) (e : Edge) : Bool :=
  (!req.avoidMotorways || noTagIn e ["motorway", "motorway_link"]) &&
  (!claimWidthTrig req ||
    noTagIn e ["service", "residential", "living_street", "track"]) &&
  (!claimHeightTrig req || noTagIn e ["tunnel"]) &&
  req.avoidAreas.all (fun a => evalCond e (avoidAreaCond a))

/-- The source's truthiness-guarded trigger `v && v > bound` coincides with
the plain comparison trigger whenever the bound is positive (a value
exceeding a positive bound is necessarily truthy). -/
lemma jsTruthyGt_eq_of_pos (v : Option ℚ) (b : ℚ) (hb : 0 < b) :
    jsTruthyGt v b = (match v with | none => false | some x => decide (b < x)) := by
  cases v with
  | none => rfl
  | some x =>
    by_cases h : b < x
    · have hx : x ≠ 0 := by intro h0; rw [h0] at h; linarith
      simp [jsTruthyGt, h, hx]
    · simp [jsTruthyGt, h]

lemma width_trig_eq (req : Request) :
    jsTruthyGt req.vehicleWidth 2.5 = claimWidthTrig req := by
  rw [jsTruthyGt_eq_of_pos req.vehicleWidth 2.5 (by norm_num)]
  rfl

lemma height_trig_eq (req : Request) :
    jsTruthyGt req.vehicleHeight 3.5 = claimHeightTrig req := by
  rw [jsTruthyGt_eq_of_pos req.vehicleHeight 3.5 (by norm_num)]
  rfl

/-- Modelled from the claim's words (C8): the buffer radius the claim
prescribes — the zone's radius whenever it is set, 500 only when unset. -/
def claimRadius (a : AvoidArea) : ℚ :=
  match a.radius with
  | none => 500
  | some r => r

/-- Modelled from the claim's words (C8): the zone excludes exactly the
edges whose geometry intersects the geodesic buffer of `claimRadius`
metres around the centre. -/
def claimZoneExcludes (a : AvoidArea) (e : Edge) : Bool :=
  decide (e.geomDistTo a.lon a.lat ≤ claimRadius a)

/-- The effective radius of the amended claim: the zone's radius when set
and non-zero, 500 when the radius is unset or 0. -/
def amendedRadius (a : AvoidArea) : ℚ :=
  match a.radius with
  | none => 500
  | some r => if r = 0 then 500 else r

lemma effRadius_eq_amended (a : AvoidArea) : effRadius a = amendedRadius a := rfl

lemma validInput_false_cond (req : Request) (hv : validInput req = true) :
    (falsyNum req.startLat || falsyNum req.startLon ||
      falsyNum req.endLat || falsyNum req.endLon) = false := by
  have h := hv
  simp only [validInput, Bool.not_eq_true'] at h
  exact h

lemma POST_missing (env : Env) (req : Request) (hv : validInput req = true)
    (hm : ¬ missingNodes env req = []) :
    POST env req =
      (.pointsNotResolved ((missingNodes env req).map (fun pr => pr.1.label)),
       nearestCalls req) := by
  have hc := validInput_false_cond req hv
  unfold POST
  rw [if_neg (by simp [hc]), if_neg hm]

lemma POST_resolved_fst (env : Env) (req : Request) (hv : validInput req = true)
    (hr : missingNodes env req = []) :
    (POST env req).1 =
      if ((metricRun env req .shortest).1.isNone &&
           (metricRun env req .fastest).1.isNone) = true
      then Response.noRouteFound
      else Response.ok (okPayload env req) := by
  have hc := validInput_false_cond req hv
  unfold POST
  rw [if_neg (by simp [hc]), if_pos hr, apply_ite Prod.fst]

lemma calcLegsAux_isSome (env : Env) (wc : List Cond) (rt : RouteType)
    (pts : List LabeledPoint) : ∀ (pairs : List (Nat × Int × Int)),
    (calcLegsAux env wc rt pts pairs).1.isSome =
      pairs.all (fun pr => !(env.routeRows rt wc pr.2.1 pr.2.2).isEmpty)
  | [] => rfl
  | (i, fromN, toN) :: rest => by
    have IH := calcLegsAux_isSome env wc rt pts rest
    simp only [calcLegsAux, List.all_cons]
    cases hrows : (env.routeRows rt wc fromN toN).isEmpty with
    | true => simp [hrows]
    | false =>
      rcases hrec : calcLegsAux env wc rt pts rest with ⟨o, calls⟩
      rw [hrec] at IH
      cases o with
      | none => simp [hrows, hrec, ← IH]
      | some legs => simp [hrows, hrec, ← IH]

lemma formatMultiLegRoute_isSome (ids : List Int) (wps : List LatLon)
    (l : List Leg) (rt : RouteType) (hl : l ≠ []) :
    (formatMultiLegRoute ids wps (some l) rt).isSome = true := by
  simp only [formatMultiLegRoute]
  rw [if_neg (by simp [hl])]
  rfl

lemma filter_map_labels (f : LabeledPoint → Option Int) :
    ∀ (pts : List LabeledPoint),
    ((pts.map (fun p => (p, f p))).filter (fun pr => pr.2.isNone)).map
        (fun pr => pr.1.label) =
      (pts.filter (fun p => (f p).isNone)).map LabeledPoint.label
  | [] => rfl
  | p :: rest => by
    cases h : (f p).isNone with
    | true => simp [List.filter_cons, h, filter_map_labels f rest]
    | false => simp [List.filter_cons, h, filter_map_labels f rest]

lemma missing_labels (env : Env) (req : Request) :
    (missingNodes env req).map (fun pr => pr.1.label) =
      ((allPoints req).filter (fun p => (env.nearestNode p.lon p.lat).isNone)).map
        LabeledPoint.label := by
  unfold missingNodes nodeResults
  exact filter_map_labels (fun p => env.nearestNode p.lon p.lat) (allPoints req)

lemma metricRun_fst (env : Env) (req : Request) (rt : RouteType) :
    (metricRun env req rt).1 = metricLegs env req rt := rfl

/-- `req₂` enables a superset of `req₁`'s constraints: each of the three
constraint triggers of `req₁` also fires in `req₂`, and every avoid zone of
`req₁` is also an avoid zone of `req₂`. -/
def strengthens (r1 r2 : Request) : Prop :=
  (r1.avoidMotorways = true → r2.avoidMotorways = true) ∧
  (jsTruthyGt r1.vehicleWidth 2.5 = true → jsTruthyGt r2.vehicleWidth 2.5 = true) ∧
  (jsTruthyGt r1.vehicleHeight 3.5 = true → jsTruthyGt r2.vehicleHeight 3.5 = true) ∧
  (∀ a ∈ r1.avoidAreas, a ∈ r2.avoidAreas)

/-- C6: the compiled edge predicate applies exactly the constraint rules,
conjunctively and independently of order: motorway avoidance excludes
`motorway`/`motorway_link` edges; a given vehicle width greater than 2.5
excludes `service`/`residential`/`living_street`/`track` edges; a given
vehicle height greater than 3.5 excludes `tunnel` edges; a clause is absent
whenever its trigger condition does not hold (the avoid-zone conjuncts are
characterized separately in the C8 development). -/
theorem C6_predicate_rules (req : Request) (e : Edge) :
    evalWhere e (buildWhereClause req none) = claimAdmits req e := by
  rw [evalWhere_buildWhere, width_trig_eq, height_trig_eq]
  simp only [claimAdmits, Bool.true_and]

/-- C7: adding constraints can only shrink the admissible edge set: if
`r2` enables a superset of `r1`'s constraints, every edge admitted by
`r2`'s compiled predicate is admitted by `r1`'s. -/
theorem C7_conjunction_monotonicity (r1 r2 : Request) (e : Edge)
    (base : Option Cond) (hs : strengthens r1 r2)
    (h2 : evalWhere e (buildWhereClause r2 base) = true) :
    evalWhere e (buildWhereClause r1 base) = true := by
  obtain ⟨hm, hw, hh, hz⟩ := hs
  rw [evalWhere_buildWhere] at h2 ⊢
  simp only [Bool.and_eq_true] at h2
  obtain ⟨⟨⟨⟨hb, hm2⟩, hw2⟩, hh2⟩, hz2⟩ := h2
  simp only [Bool.and_eq_true]
  refine ⟨⟨⟨⟨hb, ?_⟩, ?_⟩, ?_⟩, ?_⟩
  · cases h1 : r1.avoidMotorways with
    | false => simp
    | true =>
      rw [hm h1] at hm2
      simp only [Bool.not_true, Bool.false_or] at hm2
      simp [hm2]
  · cases h1 : jsTruthyGt r1.vehicleWidth 2.5 with
    | false => simp [h1]
    | true =>
      rw [hw h1] at hw2
      simp only [Bool.not_true, Bool.false_or] at hw2
      simp [hw2]
  · cases h1 : jsTruthyGt r1.vehicleHeight 3.5 with
    | false => simp [h1]
    | true =>
      rw [hh h1] at hh2
      simp only [Bool.not_true, Bool.false_or] at hh2
      simp [hh2]
  · simp only [List.all_eq_true] at hz2 ⊢
    intro a ha
    exact hz2 a (hz a ha)

/-- C9: the time-metric predicate is exactly the distance predicate
conjoined with the requirement that the edge's time cost is non-null. -/
theorem C9_time_predicate_extends_distance (req : Request) (e : Edge) :
    evalWhere e (buildWhereClause req (some .costNotNull)) =
      (e.cost_s.isSome && evalWhere e (buildWhereClause req none)) := by
  rw [evalWhere_buildWhere, evalWhere_buildWhere]
  simp only [evalCond, Bool.true_and, Bool.and_assoc]

/-- Concrete inputs refuting C8 as stated: an avoid area whose radius is
set to 0. -/
def c8Area : AvoidArea := { lat := 33, lon := 133, radius := some 0 }

def c8Edge : Edge :=
  { gid := 1, tagValues := [], cost_s := some 1, geomDistTo := fun _ _ => 100 }

def c8Req : Request :=
  { startLat := some 33, startLon := some 133, endLat := some 34,
    endLon := some 134, waypoints := [], avoidMotorways := false,
    vehicleWidth := none, vehicleHeight := none, avoidAreas := [c8Area] }

/-- C8 counterexample: for a zone with `radius` set to `0`, the claim
prescribes a buffer of radius 0 (the radius is set, so no default applies),
under which an edge 100 metres away is not excluded; the code, whose
`area.radius || 500` also defaults on the falsy value `0`, buffers 500
metres and excludes that edge. -/
theorem C8_counterexample :
    claimZoneExcludes c8Area c8Edge = false ∧
    evalWhere c8Edge (buildWhereClause c8Req none) = false := by
  constructor
  · decide
  · decide

/-- C8 (amended): every avoid zone excludes exactly the edges whose
geometry intersects (geodesic distance at most) the buffer of the
effective radius — the zone's radius when set and non-zero, 500 when the
radius is unset or 0: an edge admitted by the compiled predicate lies
strictly outside every zone's effective buffer, and the compiled zone
clause equals the negated intersection test against the effective
radius. -/
theorem C8_amended_geodesic_buffer (req : Request) (e : Edge) (a : AvoidArea)
    (ha : a ∈ req.avoidAreas)
    (hadm : evalWhere e (buildWhereClause req none) = true) :
    amendedRadius a < e.geomDistTo a.lon a.lat ∧
    evalCond e (avoidAreaCond a) =
      !(decide (e.geomDistTo a.lon a.lat ≤ amendedRadius a)) := by
  rw [evalWhere_buildWhere] at hadm
  simp only [Bool.and_eq_true, List.all_eq_true] at hadm
  have hzone := hadm.2 a ha
  constructor
  · simp only [evalCond, avoidAreaCond, decide_eq_true_eq] at hzone
    exact hzone
  · simp only [evalCond, avoidAreaCond, effRadius_eq_amended]
    by_cases h : amendedRadius a < e.geomDistTo a.lon a.lat
    · simp [h, not_le.mpr h]
    · simp [h, le_of_not_lt h]

/-- Concrete inputs for the C8 witness: a zone with unset radius and an
edge 600 metres away. -/
def c8wArea : AvoidArea := { lat := 33, lon := 133, radius := none }

def c8wEdge : Edge :=
  { gid := 2, tagValues := [], cost_s := some 1, geomDistTo := fun _ _ => 600 }

def c8wReq : Request :=
  { startLat := some 33, startLon := some 133, endLat := some 34,
    endLon := some 134, waypoints := [], avoidMotorways := false,
    vehicleWidth := none, vehicleHeight := none, avoidAreas := [c8wArea] }

/-- Witness for the amended C8 theorem at a concrete zone and edge. -/
theorem C8_amended_witness :
    c8wArea ∈ c8wReq.avoidAreas ∧
    evalWhere c8wEdge (buildWhereClause c8wReq none) = true ∧
    (amendedRadius c8wArea < c8wEdge.geomDistTo c8wArea.lon c8wArea.lat ∧
      evalCond c8wEdge (avoidAreaCond c8wArea) =
        !(decide (c8wEdge.geomDistTo c8wArea.lon c8wArea.lat ≤
            amendedRadius c8wArea))) :=
  ⟨by decide, by decide,
    C8_amended_geodesic_buffer c8wReq c8wEdge c8wArea (by decide) (by decide)⟩

/-- Concrete requests for the C7 witness: no constraints versus motorway
avoidance, and an untagged edge admitted by both. -/
def c7Req1 : Request :=
  { startLat := some 33, startLon := some 133, endLat := some 34,
    endLon := some 134, waypoints := [], avoidMotorways := false,
    vehicleWidth := none, vehicleHeight := none, avoidAreas := [] }

def c7Req2 : Request :=
  { startLat := some 33, startLon := some 133, endLat := some 34,
    endLon := some 134, waypoints := [], avoidMotorways := true,
    vehicleWidth := none, vehicleHeight := none, avoidAreas := [] }

def c7Edge : Edge :=
  { gid := 3, tagValues := ["primary"], cost_s := some 1,
    geomDistTo := fun _ _ => 0 }

/-- Witness for C7 at a concrete pair of constraint configurations. -/
theorem C7_witness :
    strengthens c7Req1 c7Req2 ∧
    evalWhere c7Edge (buildWhereClause c7Req2 none) = true ∧
    evalWhere c7Edge (buildWhereClause c7Req1 none) = true :=
  ⟨⟨fun h => by simp [c7Req1] at h, fun h => h, fun h => h, fun a ha => ha⟩,
   by decide,
   C7_conjunction_monotonicity c7Req1 c7Req2 c7Edge none
     ⟨fun h => by simp [c7Req1] at h, fun h => h, fun h => h, fun a ha => ha⟩
     (by decide)⟩

/-- C4: a metric's multi-leg route is produced if and only if every leg's
route query returns a non-empty row set; if any single leg's row set is
empty the whole metric's result is null, regardless of the other legs
(captured by the equality of the two Boolean conditions). -/
theorem C4_route_iff_every_leg_nonempty (env : Env) (req : Request)
    (ids : List Int) (pts : List LabeledPoint) (rt : RouteType) :
    (calculateMultiLegRoute env req ids pts rt).1.isSome =
      (legPairs ids).all
        (fun pr => !(env.routeRows rt (queryWhere req rt) pr.2.1 pr.2.2).isEmpty) :=
  calcLegsAux_isSome env (queryWhere req rt) rt pts (legPairs ids)

/-- C10: a request whose start or end latitude or longitude equals 0 — a
geographically valid coordinate — is rejected as invalid input with status
400 before any resolution query is issued, because the presence check
treats the falsy number 0 as a missing coordinate. -/
theorem C10_zero_coordinate_rejected (env : Env) (req : Request)
    (h : req.startLat = some 0 ∨ req.startLon = some 0 ∨
      req.endLat = some 0 ∨ req.endLon = some 0) :
    POST env req = (.invalidInput, []) ∧ status (POST env req).1 = 400 := by
  have hfal : (falsyNum req.startLat || falsyNum req.startLon ||
      falsyNum req.endLat || falsyNum req.endLon) = true := by
    rcases h with h | h | h | h <;> simp [falsyNum, h]
  have hp : POST env req = (.invalidInput, []) := by
    unfold POST
    rw [if_pos hfal]
  exact ⟨hp, by rw [hp]; rfl⟩

/-- A request with a start latitude of exactly 0 (on the equator). -/
def c10Env : Env :=
  { nearestNode := fun _ _ => some 1, routeRows := fun _ _ _ _ => [] }

def c10Req : Request :=
  { startLat := some 0, startLon := some 135, endLat := some 34,
    endLon := some 134, waypoints := [], avoidMotorways := false,
    vehicleWidth := none, vehicleHeight := none, avoidAreas := [] }

/-- Witness for C10 at a concrete equator-latitude request. -/
theorem C10_witness :
    (c10Req.startLat = some 0 ∨ c10Req.startLon = some 0 ∨
      c10Req.endLat = some 0 ∨ c10Req.endLon = some 0) ∧
    (POST c10Env c10Req = (.invalidInput, []) ∧
      status (POST c10Env c10Req).1 = 400) :=
  ⟨Or.inl rfl, C10_zero_coordinate_rejected c10Env c10Req (Or.inl rfl)⟩

/-- C5: when at least one input point resolves to no vertex, the response
is exactly `PointsNotResolved` (status 404) listing precisely the labels of
the unresolved points in input order, and the only queries issued are the
nearest-vertex lookups — no route query runs for either metric. -/
theorem C5_unresolved_points_short_circuit (env : Env) (req : Request)
    (hv : validInput req = true) (hm : missingNodes env req ≠ []) :
    (POST env req).1 =
      .pointsNotResolved
        (((allPoints req).filter
            (fun p => (env.nearestNode p.lon p.lat).isNone)).map
          LabeledPoint.label) ∧
    (POST env req).2 = nearestCalls req ∧
    status (POST env req).1 = 404 := by
  have hp := POST_missing env req hv hm
  refine ⟨?_, ?_, ?_⟩
  · rw [hp]
    show Response.pointsNotResolved _ = _
    rw [missing_labels]
  · rw [hp]
  · rw [hp]; rfl

/-- An environment in which the point at longitude 99 has no nearby
vertex, and a request routing through it as its only waypoint. -/
def c5Env : Env :=
  { nearestNode := fun lon _ => if lon = 99 then none else some 1,
    routeRows := fun _ _ _ _ => [] }

def c5Req : Request :=
  { startLat := some 33, startLon := some 133, endLat := some 34,
    endLon := some 134, waypoints := [{ lat := 33, lon := 99 }],
    avoidMotorways := false, vehicleWidth := none, vehicleHeight := none,
    avoidAreas := [] }

/-- Witness for C5 at a concrete request with one unresolvable waypoint. -/
theorem C5_witness :
    validInput c5Req = true ∧ missingNodes c5Env c5Req ≠ [] ∧
    ((POST c5Env c5Req).1 =
        .pointsNotResolved
          (((allPoints c5Req).filter
              (fun p => (c5Env.nearestNode p.lon p.lat).isNone)).map
            LabeledPoint.label) ∧
      (POST c5Env c5Req).2 = nearestCalls c5Req ∧
      status (POST c5Env c5Req).1 = 404) :=
  ⟨by decide, by decide,
    C5_unresolved_points_short_circuit c5Env c5Req (by decide) (by decide)⟩

/-- C3: partial metric success is a success.  With valid input and all
points resolved: the response is `NoRouteFound` (404) exactly when both
metric pipelines fail; when exactly one metric succeeds (with a non-empty
leg list), the response is a successful payload containing that metric's
formatted variant with the other variant absent. -/
theorem C3_partial_metric_success (env : Env) (req : Request)
    (hv : validInput req = true) (hr : missingNodes env req = []) :
    ((POST env req).1 = .noRouteFound ↔
      metricLegs env req .shortest = none ∧ metricLegs env req .fastest = none) ∧
    (∀ ls, metricLegs env req .shortest = some ls → ls ≠ [] →
      metricLegs env req .fastest = none →
      (POST env req).1 = .ok (okPayload env req) ∧
      (okPayload env req).shortest.isSome = true ∧
      (okPayload env req).fastest = none ∧
      status (POST env req).1 = 200) ∧
    (∀ lf, metricLegs env req .fastest = some lf → lf ≠ [] →
      metricLegs env req .shortest = none →
      (POST env req).1 = .ok (okPayload env req) ∧
      (okPayload env req).fastest.isSome = true ∧
      (okPayload env req).shortest = none ∧
      status (POST env req).1 = 200) := by
  have hpost := POST_resolved_fst env req hv hr
  rw [metricRun_fst, metricRun_fst] at hpost
  refine ⟨⟨?_, ?_⟩, ?_, ?_⟩
  · intro h
    rw [hpost] at h
    by_cases hb : ((metricLegs env req .shortest).isNone &&
        (metricLegs env req .fastest).isNone) = true
    · simp only [Bool.and_eq_true, Option.isNone_iff_eq_none] at hb
      exact hb
    · rw [if_neg hb] at h
      exact absurd h (by simp)
  · rintro ⟨h1, h2⟩
    rw [hpost, if_pos (by simp [h1, h2])]
  · intro ls hS hls hF
    have hok : (POST env req).1 = .ok (okPayload env req) := by
      rw [hpost, if_neg (by simp [hS])]
    refine ⟨hok, ?_, ?_, by rw [hok]; rfl⟩
    · show (formatMultiLegRoute (resolvedIds env req) req.waypoints
        (metricRun env req .shortest).1 .shortest).isSome = true
      rw [metricRun_fst, hS]
      exact formatMultiLegRoute_isSome _ _ ls _ hls
    · show formatMultiLegRoute (resolvedIds env req) req.waypoints
        (metricRun env req .fastest).1 .fastest = none
      rw [metricRun_fst, hF]
      rfl
  · intro lf hF hlf hS
    have hok : (POST env req).1 = .ok (okPayload env req) := by
      rw [hpost, if_neg (by simp [hF])]
    refine ⟨hok, ?_, ?_, by rw [hok]; rfl⟩
    · show (formatMultiLegRoute (resolvedIds env req) req.waypoints
        (metricRun env req .fastest).1 .fastest).isSome = true
      rw [metricRun_fst, hF]
      exact formatMultiLegRoute_isSome _ _ lf _ hlf
    · show formatMultiLegRoute (resolvedIds env req) req.waypoints
        (metricRun env req .shortest).1 .shortest = none
      rw [metricRun_fst, hS]
      rfl

/-- An environment in which the distance query finds a one-row path while
the time query finds nothing (e.g. the only edge's `cost_s` is null). -/
def c3Row : Row :=
  { seq := 1, path_seq := 1, node := 1, edge := 1, cost := 1, agg_cost := 1,
    geom := none, name := none, length_m := some 1, cost_minutes := none,
    road_type := none }

def c3Env : Env :=
  { nearestNode := fun _ _ => some 1,
    routeRows := fun rt _ _ _ =>
      match rt with | .shortest => [c3Row] | .fastest => [] }

def c3Req : Request :=
  { startLat := some 33, startLon := some 133, endLat := some 34,
    endLon := some 134, waypoints := [], avoidMotorways := false,
    vehicleWidth := none, vehicleHeight := none, avoidAreas := [] }

/-- The leg list the distance pipeline produces in the C3 witness
environment. -/
def c3Legs : List Leg :=
  [{ fromIndex := 0, toIndex := 1,
     fromPoint := (allPoints c3Req).getD 0 ptDefault,
     toPoint := (allPoints c3Req).getD 1 ptDefault,
     rows := [c3Row] }]

/-- Witness for C3: distance succeeds, time fails, and the response keeps
the distance variant while dropping the time variant. -/
theorem C3_witness :
    validInput c3Req = true ∧ missingNodes c3Env c3Req = [] ∧
    metricLegs c3Env c3Req .shortest = some c3Legs ∧ c3Legs ≠ [] ∧
    metricLegs c3Env c3Req .fastest = none ∧
    ((POST c3Env c3Req).1 = .ok (okPayload c3Env c3Req) ∧
      (okPayload c3Env c3Req).shortest.isSome = true ∧
      (okPayload c3Env c3Req).fastest = none ∧
      status (POST c3Env c3Req).1 = 200) := by
  refine ⟨by decide, by decide, by decide, by decide, by decide, ?_⟩
  exact (C3_partial_metric_success c3Env c3Req (by decide) (by decide)).2.1
    c3Legs (by decide) (by decide) (by decide)

/-- C1: for a stitched route built from a non-empty list of non-empty legs
(each leg's local cumulative costs non-negative and non-decreasing, as the
per-leg path invariant guarantees), every stitched segment's accumulated
cost equals the sum of the final cumulative costs of all previous legs plus
its own leg-local cumulative cost, and the accumulated costs are
monotonically non-decreasing across the whole segments array, including at
every leg boundary. -/
theorem C1_monotonic_cumulative_cost (ids : List Int) (wps : List LatLon)
    (L : List Leg) (rt : RouteType)
    (hL : L ≠ [])
    (hne : ∀ leg ∈ L, leg.rows ≠ [])
    (hchain : ∀ leg ∈ L, List.Chain' (· ≤ ·) (leg.rows.map Row.agg_cost))
    (hnn : ∀ leg ∈ L, ∀ row ∈ leg.rows, 0 ≤ row.agg_cost) :
    ∃ r, formatMultiLegRoute ids wps (some L) rt = some r ∧
      r.segments.map Segment.accumulatedCost = specAccCosts 0 L ∧
      List.Chain' (fun s t => s.accumulatedCost ≤ t.accumulatedCost)
        r.segments := by
  have hseg : ((L.foldl stitchLeg initState).segments).map
      Segment.accumulatedCost = specAccCosts 0 L := by
    rw [foldl_stitchLeg_segments]
    exact map_acc_stitchSegs 0 0 L
  refine ⟨assembleRoute ids wps L rt, ?_, ?_, ?_⟩
  · simp only [formatMultiLegRoute]
    rw [if_neg (by simp [hL])]
  · exact hseg
  · have hch : List.Chain' (· ≤ ·)
        (((L.foldl stitchLeg initState).segments).map Segment.accumulatedCost) := by
      rw [hseg]
      exact specAccCosts_chain 0 L hne hchain hnn
    exact (List.chain'_map Segment.accumulatedCost).mp hch

/-- Legs for the C1/C2 witnesses: two legs of two segments each, with
leg-local sequences 1, 2 and increasing local cumulative costs. -/
def wRow (s : Int) (a : ℚ) : Row :=
  { seq := s, path_seq := s, node := s, edge := s, cost := 1, agg_cost := a,
    geom := none, name := none, length_m := some 1, cost_minutes := some 1,
    road_type := none }

def wLegA : Leg :=
  { fromIndex := 0, toIndex := 1, fromPoint := ptDefault, toPoint := ptDefault,
    rows := [wRow 1 1, wRow 2 2] }

def wLegB : Leg :=
  { fromIndex := 1, toIndex := 2, fromPoint := ptDefault, toPoint := ptDefault,
    rows := [wRow 1 3, wRow 2 5] }

/-- Witness for C1 at a concrete two-leg route. -/
theorem C1_witness :
    ([wLegA, wLegB] ≠ ([] : List Leg)) ∧
    (∀ leg ∈ [wLegA, wLegB], leg.rows ≠ []) ∧
    (∀ leg ∈ [wLegA, wLegB],
      List.Chain' (· ≤ ·) (leg.rows.map Row.agg_cost)) ∧
    (∀ leg ∈ [wLegA, wLegB], ∀ row ∈ leg.rows, 0 ≤ row.agg_cost) ∧
    (∃ r, formatMultiLegRoute [1, 2, 3] [] (some [wLegA, wLegB]) .shortest =
        some r ∧
      r.segments.map Segment.accumulatedCost = specAccCosts 0 [wLegA, wLegB] ∧
      List.Chain' (fun s t => s.accumulatedCost ≤ t.accumulatedCost)
        r.segments) :=
  ⟨by decide, by decide,
    by
      intro leg hleg
      simp only [List.mem_cons, List.not_mem_nil, or_false] at hleg
      rcases hleg with rfl | rfl <;> norm_num [wLegA, wLegB, wRow, List.chain'_cons],
    by decide,
    C1_monotonic_cumulative_cost [1, 2, 3] [] [wLegA, wLegB] .shortest
      (by decide) (by decide)
      (by
        intro leg hleg
        simp only [List.mem_cons, List.not_mem_nil, or_false] at hleg
        rcases hleg with rfl | rfl <;>
          norm_num [wLegA, wLegB, wRow, List.chain'_cons])
      (by decide)⟩

/-- C2: for a stitched route built from a non-empty list of non-empty legs
whose leg-local sequences each form the contiguous run starting at the
engine's common starting sequence `c`, every stitched segment's sequence is
the running sequence offset (sum of previous legs' segment counts) plus the
leg-local sequence, and the stitched sequence values form one contiguous
non-decreasing run starting at the first leg's own starting sequence, with
no gaps. -/
theorem C2_sequence_continuity (ids : List Int) (wps : List LatLon)
    (L : List Leg) (rt : RouteType) (c : Int)
    (hL : L ≠ [])
    (hne : ∀ leg ∈ L, leg.rows ≠ [])
    (hseq : ∀ leg ∈ L, leg.rows.map Row.seq = seqList c leg.rows.length) :
    ∃ r, formatMultiLegRoute ids wps (some L) rt = some r ∧
      r.segments.map Segment.sequence = specSeqs 0 L ∧
      r.segments.map Segment.sequence = seqList c r.segments.length ∧
      ∀ leg0 ∈ L.head?, ∀ row0 ∈ leg0.rows.head?, row0.seq = c := by
  have hmap : ((L.foldl stitchLeg initState).segments).map Segment.sequence =
      specSeqs 0 L := by
    rw [foldl_stitchLeg_segments]
    exact map_seq_stitchSegs 0 0 L
  have hlen : ((L.foldl stitchLeg initState).segments).length = totalRows L := by
    have h := congrArg List.length hmap
    rw [List.length_map, specSeqs_length] at h
    exact h
  refine ⟨assembleRoute ids wps L rt, ?_, ?_, ?_, ?_⟩
  · simp only [formatMultiLegRoute]
    rw [if_neg (by simp [hL])]
  · exact hmap
  · show ((L.foldl stitchLeg initState).segments).map Segment.sequence =
      seqList c ((L.foldl stitchLeg initState).segments).length
    rw [hmap, hlen, specSeqs_eq c 0 L hseq, zero_add]
  · intro leg0 h0 row0 hr0
    have hmem : leg0 ∈ L := List.mem_of_mem_head? h0
    have h1 := hseq leg0 hmem
    cases hrows : leg0.rows with
    | nil => exact absurd hrows (hne leg0 hmem)
    | cons r rs =>
      rw [hrows] at h1 hr0
      simp only [List.head?_cons, Option.mem_def, Option.some.injEq] at hr0
      simp only [List.map_cons, List.length_cons, seqList,
        List.cons.injEq] at h1
      rw [← hr0]
      exact h1.1

/-- Witness for C2 at the same concrete two-leg route, with common leg
starting sequence 1. -/
theorem C2_witness :
    ([wLegA, wLegB] ≠ ([] : List Leg)) ∧
    (∀ leg ∈ [wLegA, wLegB], leg.rows ≠ []) ∧
    (∀ leg ∈ [wLegA, wLegB],
      leg.rows.map Row.seq = seqList 1 leg.rows.length) ∧
    (∃ r, formatMultiLegRoute [1, 2, 3] [] (some [wLegA, wLegB]) .fastest =
        some r ∧
      r.segments.map Segment.sequence = specSeqs 0 [wLegA, wLegB] ∧
      r.segments.map Segment.sequence = seqList 1 r.segments.length ∧
      ∀ leg0 ∈ ([wLegA, wLegB] : List Leg).head?,
        ∀ row0 ∈ leg0.rows.head?, row0.seq = 1) :=
  ⟨by decide, by decide, by decide,
    C2_sequence_continuity [1, 2, 3] [] [wLegA, wLegB] .fastest 1
      (by decide) (by decide) (by decide)⟩

end PgRouting
